import Mathlib

/-!
Shallow embedding of `src/bin/coverage_report_single.py` (class `singleReport`):
the coverage aggregation and region-selection engine of the single-sample
coverage report.

Tables are lists of typed rows.  The pandas operations used by the source are
modelled as list transformations that preserve row order exactly as pandas
does: `drop_duplicates` keeps the first occurrence of each key,
`merge(..., how="left")` enumerates left rows in order and, for each left row,
the matching right rows in right-table order, and boolean-mask selection keeps
the original row order.
-/

namespace CoverageReport

/-- A `chrom` cell.  `read_csv` yields int64 for a purely numeric chromosome
column and str (object dtype) otherwise; a pandas merge between an int column
and a str column never matches, which the two constructors model by ordinary
constructor inequality.  `astype(str)` sends `ints n` to its decimal string. -/
inductive ChromVal where
  | ints : Int → ChromVal
  | strs : String → ChromVal
deriving DecidableEq

/-- `astype(str)` on a single chrom cell. -/
def chromToStr : ChromVal → String
  | .ints n => toString n
  | .strs s => s

/-- Row of the raw (per-base) coverage table; columns fixed by `load_files`
(`chrom, exon_start, exon_end, gene, tx, exon, cov_start, cov_end, cov`). -/
structure RawCovRow where
  chrom : ChromVal
  exon_start : Int
  exon_end : Int
  gene : String
  tx : String
  exon : Int
  cov_start : Int
  cov_end : Int
  cov : Int
deriving DecidableEq

/-- Row of the concatenated SNP VCF table (`chrom, snp_pos, id, ref, alt`). -/
structure SnpRow where
  chrom : ChromVal
  snp_pos : Int
  id : String
  ref : String
  alt : String
deriving DecidableEq

/-- Row of the `exons` projection built in `snp_coverage`. -/
structure ExonInterval where
  chrom : ChromVal
  exon_start : Int
  exon_end : Int
deriving DecidableEq

/-- Row of the `exons_cov` projection built in `snp_coverage`. -/
structure ExonCovRow where
  gene : String
  exon : Int
  chrom : ChromVal
  exon_start : Int
  exon_end : Int
  cov : Int
deriving DecidableEq

/-- Row of `snps` after the first merge, range filter and projection in
`snp_coverage`. -/
structure SnpMatchRow where
  chrom : ChromVal
  snp_pos : Int
  ref : String
  alt : String
  id : String
deriving DecidableEq

/-- Row of `snps_cov` (the report columns `Gene, Exon, Chromosome, Position,
Ref, Alt, ID, Coverage`, kept here under their source-table names). -/
structure SnpCovRow where
  gene : String
  exon : Int
  chrom : ChromVal
  snp_pos : Int
  ref : String
  alt : String
  id : String
  cov : Int
deriving DecidableEq

/-- `DataFrame.drop_duplicates` keyed by `k`: keep the first row of each key,
in order of first occurrence. -/
def dropDuplicatesBy {α β : Type} [DecidableEq β] (k : α → β) : List α → List α
  | [] => []
  | a :: as => a :: (dropDuplicatesBy k as).filter (fun b => decide (k b ≠ k a))

/-- `exons`: the distinct `(chrom, exon_start, exon_end)` rows of
`raw_coverage`; duplicates are dropped before the chrom column is cast to
str, exactly as in the source (lines 141-147). -/
def exonsOf (raw : List RawCovRow) : List ExonInterval :=
  (dropDuplicatesBy id (raw.map fun r =>
      ({ chrom := r.chrom, exon_start := r.exon_start, exon_end := r.exon_end } :
        ExonInterval))).map
    fun e => { e with chrom := .strs (chromToStr e.chrom) }

/-- `exons_cov`: the distinct
`(gene, exon, chrom, exon_start, exon_end, cov)` rows of `raw_coverage`, with
the chrom column cast to str afterwards (lines 144-148). -/
def exonsCovOf (raw : List RawCovRow) : List ExonCovRow :=
  (dropDuplicatesBy id (raw.map fun r =>
      ({ gene := r.gene, exon := r.exon, chrom := r.chrom,
         exon_start := r.exon_start, exon_end := r.exon_end, cov := r.cov } :
        ExonCovRow))).map
    fun e => { e with chrom := .strs (chromToStr e.chrom) }

/-- `snps`: `exons.merge(snp_df, on="chrom", how="left")` followed by the
range filter `snp_pos >= exon_start` and `snp_pos <= exon_end` and the
projection to `(chrom, snp_pos, ref, alt, id)` (lines 151-154).  The chrom of
`snp_df` is compared as loaded, without any cast.  Left-join rows without a
chrom match carry NaN positions and always fail the range filter, so the left
join followed by the filter equals this inner join. -/
def snpsOf (snp_df : List SnpRow) (raw : List RawCovRow) : List SnpMatchRow :=
  (exonsOf raw).flatMap fun e =>
    (snp_df.filter fun v =>
        decide (v.chrom = e.chrom ∧ e.exon_start ≤ v.snp_pos ∧ v.snp_pos ≤ e.exon_end)).map
      fun v => { chrom := e.chrom, snp_pos := v.snp_pos, ref := v.ref,
                 alt := v.alt, id := v.id }

/-- `snp_cov`: `snps.merge(exons_cov, on="chrom", how="left")` with the
report column selection (lines 158-160); the merge is on `chrom` alone.
Every `snps` chrom originates from `exons`, whose chrom set equals that of
`exons_cov`, so a right match always exists and the left join equals this
inner join. -/
def snpCovAll (snp_df : List SnpRow) (raw : List RawCovRow) : List SnpCovRow :=
  (snpsOf snp_df raw).flatMap fun s =>
    ((exonsCovOf raw).filter fun e => decide (e.chrom = s.chrom)).map fun e =>
      { gene := e.gene, exon := e.exon, chrom := s.chrom, snp_pos := s.snp_pos,
        ref := s.ref, alt := s.alt, id := s.id, cov := e.cov }

/-- `snps_cov`: deduplicated on `(chrom, snp_pos, ref, alt)` keeping the
first occurrence (`drop_duplicates(subset=...)`, line 161);
`Coverage.astype(int)` is the identity here because `cov` is integral. -/
def snpsCov (snp_df : List SnpRow) (raw : List RawCovRow) : List SnpCovRow :=
  dropDuplicatesBy (fun r => (r.chrom, r.snp_pos, r.ref, r.alt))
    (snpCovAll snp_df raw)

/-- `snp_coverage`: split `snps_cov` into `(snps_low_cov, snps_high_cov)` by
`Coverage < threshold` and `Coverage >= threshold` (lines 169-170). -/
def snp_coverage (snp_df : List SnpRow) (raw : List RawCovRow) (threshold : Int) :
    List SnpCovRow × List SnpCovRow :=
  ((snpsCov snp_df raw).filter fun r => decide (r.cov < threshold),
   (snpsCov snp_df raw).filter fun r => decide (threshold ≤ r.cov))

/-- Row of the exon stats table (§6 header: `gene, tx, chrom, exon,
exon_start, exon_end, min, mean, max, 10x, 20x, 30x, 50x, 100x`; the depth
columns are named `c10x` etc. because a Lean identifier cannot start with a
digit). -/
structure ExonStatRow where
  gene : String
  tx : String
  chrom : Int
  exon : Int
  exon_start : Int
  exon_end : Int
  min : Int
  mean : Int
  max : Int
  c10x : Int
  c20x : Int
  c30x : Int
  c50x : Int
  c100x : Int
deriving DecidableEq

/-- `row[c]` for the integer depth columns.  The label looked up by
`low_coverage_regions` is always `str(threshold) + "x"` (digits followed by
`x`), so only the five depth columns of the fixed schema can ever be named;
`none` models the pandas `KeyError` on a missing label. -/
def getCol (r : ExonStatRow) (c : String) : Option Int :=
  if c = "10x" then some r.c10x
  else if c = "20x" then some r.c20x
  else if c = "30x" then some r.c30x
  else if c = "50x" then some r.c50x
  else if c = "100x" then some r.c100x
  else none

/-- `str(threshold) + "x"` (line 189). -/
def thresholdCol (t : Int) : String := toString t ++ "x"

/-- The value of the threshold column of a row (meaningful when the column
exists; defaults to 0 on a missing label, which no theorem relies on). -/
def thresholdVal (r : ExonStatRow) (t : Int) : Int :=
  (getCol r (thresholdCol t)).getD 0

/-- The requested threshold names a depth column of the schema. -/
def validThreshold (t : Int) : Prop :=
  thresholdCol t ∈ (["10x", "20x", "30x", "50x", "100x"] : List String)

instance (t : Int) : Decidable (validThreshold t) := by
  unfold validThreshold; infer_instance

/-- Errors raised by the embedded fragments. -/
inductive ReportError where
  | keyError : String → ReportError
deriving DecidableEq

deriving instance DecidableEq for Except

/-- The row loop of `low_coverage_regions` (lines 201-203): append each row
whose `int(row[threshold])` is `< 100`; accessing a missing column label
raises `KeyError`.  The trailing `astype` back to int (lines 206-215) is the
identity here because all modelled cells are integers. -/
def lowStatsGo (col : String) : List ExonStatRow → Except ReportError (List ExonStatRow)
  | [] => .ok []
  | r :: rs =>
    match getCol r col with
    | none => .error (.keyError col)
    | some v =>
      match lowStatsGo col rs with
      | .error e => .error e
      | .ok tail => .ok (if v < 100 then r :: tail else tail)

/-- `low_stats`: the classifier part of `low_coverage_regions`. -/
def lowStats (cov_stats : List ExonStatRow) (t : Int) :
    Except ReportError (List ExonStatRow) :=
  lowStatsGo (thresholdCol t) cov_stats

/-- `low_exon_list`: the `(gene, exon)` pairs of the low-coverage rows
(lines 218-219). -/
def lowExonList (low_stats : List ExonStatRow) : List (String × Int) :=
  low_stats.map fun r => (r.gene, r.exon)

/-- The boolean-mask selection
`raw_coverage[raw_coverage[["gene","exon"]].apply(tuple, axis=1).isin(keys)]`
(lines 222-223): keep rows, in original order, whose `(gene, exon)` pair is a
member of the key list. -/
def extractRaw (keys : List (String × Int)) (raw : List RawCovRow) : List RawCovRow :=
  raw.filter fun r => decide ((r.gene, r.exon) ∈ keys)

/-- `low_coverage_regions`: classify then extract. -/
def low_coverage_regions (cov_stats : List ExonStatRow) (raw : List RawCovRow)
    (t : Int) : Except ReportError (List RawCovRow) :=
  match lowStats cov_stats t with
  | .error e => .error e
  | .ok ls => .ok (extractRaw (lowExonList ls) raw)

/-- Row of the gene stats table; only its `gene` column is consumed by the
core (`generate_report` line 486). -/
structure GeneSummaryRow where
  gene : String
deriving DecidableEq

/-- The pivot index of `generate_report` (line 470):
`(gene, tx, chrom, exon, exon_start, exon_end)`. -/
def pivotKey (r : ExonStatRow) : String × String × Int × Int × Int × Int :=
  (r.gene, r.tx, r.chrom, r.exon, r.exon_start, r.exon_end)

/-- `sub_20x`: the row loop of `generate_report` (lines 453-455), at the
hard-coded `"20x"` column. -/
def sub20Of (cov_stats : List ExonStatRow) : List ExonStatRow :=
  cov_stats.filter fun r => decide (r.c20x < 100)

/-- The group keys of `pd.pivot_table(sub_20x, index=[...])` (line 473): one
row per distinct pivot key.  `pivot_table` sorts the keys; the counters read
off the table are order-independent, so the order is kept as first
occurrence here. -/
def pivotKeys (rows : List ExonStatRow) :
    List (String × String × Int × Int × Int × Int) :=
  dropDuplicatesBy id (rows.map pivotKey)

/-- The three scalar counters substituted into the report. -/
structure ReportCounters where
  total_genes : Nat
  gene_issues : Nat
  exon_issues : Nat
deriving DecidableEq

/-- The counters of `generate_report` (lines 486-488):
`total_genes = len(cov_summary["gene"])` (a row count),
`gene_issues = len(list(set(sub_20_stats["gene"].tolist())))` and
`exon_issues = len(sub_20_stats["exon"])`, where `sub_20_stats` is the pivot
of the hard-coded `sub_20x` selection.  The configured threshold is only
displayed (line 496), never used in these counters. -/
def generateReportCounters (cov_stats : List ExonStatRow)
    (cov_summary : List GeneSummaryRow) : ReportCounters :=
  let keys := pivotKeys (sub20Of cov_stats)
  { total_genes := (cov_summary.map GeneSummaryRow.gene).length
  , gene_issues := (dropDuplicatesBy id (keys.map fun k => k.1)).length
  , exon_issues := keys.length }

/-- The pandas error raised by `bool(DataFrame)`. -/
inductive PdError where
  | ambiguousTruth : PdError
deriving DecidableEq

/-- Python truthiness of `snps_low_cov` / `snps_high_cov` as used at lines
527 and 532: `None` is falsy, while `DataFrame.__bool__` always raises
`ValueError` (the truth value of a DataFrame is ambiguous), whatever the
frame contains. -/
def dfTruthValue {α : Type} : Option (List α) → Except PdError Bool
  | none => .ok false
  | some _ => .error .ambiguousTruth

/-- Stand-in for `DataFrame.to_html(...)`; rendering proper is outside the
core (§1), only the reachability of this call matters here. -/
def snpTableHtml (rows : List SnpCovRow) : String :=
  "<table rows=" ++ toString rows.length ++ ">"

/-- One `if snps_low_cov:` / `if snps_high_cov:` branch of `generate_report`
(lines 527-535). -/
def renderOptionalTable (placeholder : String) (df : Option (List SnpCovRow)) :
    Except PdError String :=
  match dfTruthValue df with
  | .error e => .error e
  | .ok true => .ok (snpTableHtml (df.getD []))
  | .ok false => .ok placeholder

/-- The SNP-table fragment of `generate_report` over both optional tables,
evaluated in source order (low first). -/
def generateReportSnp (low high : Option (List SnpCovRow)) :
    Except PdError (String × String) :=
  match renderOptionalTable "$snps_low_cov" low with
  | .error e => .error e
  | .ok sl =>
    match renderOptionalTable "$snps_high_cov" high with
    | .error e => .error e
    | .ok sh => .ok (sl, sh)

/-- The `main` dispatch (lines 611-615): the two DataFrames of `snp_coverage` when
SNP VCFs were supplied, else `(None, None)`. -/
def mainSnpFlow (supplied : Bool) (snp_df : List SnpRow) (raw : List RawCovRow)
    (t : Int) : Option (List SnpCovRow) × Option (List SnpCovRow) :=
  if supplied then
    (some (snp_coverage snp_df raw t).1, some (snp_coverage snp_df raw t).2)
  else (none, none)

/-! Concrete rows used by witness and counterexample theorems. -/

/-- First distinct raw-coverage row of chromosome 17: an interval far away
from the test variant, with depth 50. -/
def c1RowA : RawCovRow := ⟨.strs "17", 1, 100, "G1", "t1", 1, 1, 100, 50⟩

/-- Second distinct raw-coverage row of chromosome 17: the interval that
contains the test variant, with depth 15. -/
def c1RowB : RawCovRow :=
  ⟨.strs "17", 41244900, 41245100, "BRCA1", "t2", 2, 41244900, 41245100, 15⟩

/-- Variant at chr17:41245000, inside `c1RowB` only. -/
def c1Snp : SnpRow := ⟨.strs "17", 41245000, "rs1", "A", "G"⟩

/-- Raw-coverage row whose chrom was read as int64 17 (numeric column). -/
def c3Raw : RawCovRow :=
  ⟨.ints 17, 41244900, 41245100, "BRCA1", "t2", 2, 41244900, 41245100, 15⟩

/-- Variant whose chrom was read as int64 17 (numeric VCF column). -/
def c3Snp : SnpRow := ⟨.ints 17, 41245000, "rs1", "A", "G"⟩

/-- Exon-stats row that is adequate at 20x (value 100) but inadequate at
30x (value 80). -/
def c2Stat : ExonStatRow := ⟨"A", "tx1", 17, 1, 100, 200, 5, 50, 99, 100, 100, 80, 60, 30⟩

/-- Exon-stats row `gene=BRCA1, exon=3` with `20x = 80`. -/
def brca1Exon3 : ExonStatRow :=
  ⟨"BRCA1", "NM_007294", 17, 3, 100, 200, 10, 60, 99, 100, 80, 70, 50, 20⟩

/-- Exon-stats row `gene=BRCA1, exon=4` with `20x = 100`. -/
def brca1Exon4 : ExonStatRow :=
  ⟨"BRCA1", "NM_007294", 17, 4, 300, 400, 30, 150, 200, 100, 100, 100, 90, 60⟩

/-- Raw-coverage row for `(BRCA1, 3)`, matching `brca1Exon3`. -/
def rawBrca3 : RawCovRow := ⟨.ints 17, 100, 200, "BRCA1", "NM_007294", 3, 100, 110, 5⟩

/-- Raw-coverage row for `(BRCA1, 4)`, matching `brca1Exon4`. -/
def rawBrca4 : RawCovRow := ⟨.ints 17, 300, 400, "BRCA1", "NM_007294", 4, 300, 310, 40⟩

/-! Helper lemmas about the list operations. -/

theorem mem_of_mem_dropDuplicatesBy {α β : Type} [DecidableEq β] (k : α → β) :
    ∀ {l : List α} {a : α}, a ∈ dropDuplicatesBy k l → a ∈ l := by
  intro l
  induction l with
  | nil => intro a h; simp [dropDuplicatesBy] at h
  | cons x xs ih =>
    intro a h
    simp only [dropDuplicatesBy, List.mem_cons] at h
    rcases h with h | h
    · exact h ▸ List.mem_cons_self x xs
    · exact List.mem_cons_of_mem x (ih (List.mem_filter.mp h).1)

theorem exists_rep_dropDuplicatesBy {α β : Type} [DecidableEq β] (k : α → β) :
    ∀ {l : List α} {a : α}, a ∈ l → ∃ b ∈ dropDuplicatesBy k l, k b = k a := by
  intro l
  induction l with
  | nil => intro a h; simp at h
  | cons x xs ih =>
    intro a h
    rcases List.mem_cons.mp h with rfl | h
    · exact ⟨a, by simp [dropDuplicatesBy], rfl⟩
    · obtain ⟨b, hb, hk⟩ := ih h
      by_cases hbx : k b = k x
      · exact ⟨x, by simp [dropDuplicatesBy], by rw [← hbx]; exact hk⟩
      · refine ⟨b, ?_, hk⟩
        simp only [dropDuplicatesBy, List.mem_cons]
        exact Or.inr (List.mem_filter.mpr ⟨hb, by simpa using hbx⟩)

theorem mem_dropDuplicatesBy_id {α : Type} [DecidableEq α] {l : List α} {a : α} :
    a ∈ dropDuplicatesBy id l ↔ a ∈ l := by
  constructor
  · exact mem_of_mem_dropDuplicatesBy id
  · intro h
    obtain ⟨b, hb, hk⟩ := exists_rep_dropDuplicatesBy id h
    exact (show b = a from hk) ▸ hb

theorem nodup_map_dropDuplicatesBy {α β : Type} [DecidableEq β] (k : α → β) :
    ∀ (l : List α), ((dropDuplicatesBy k l).map k).Nodup := by
  intro l
  induction l with
  | nil => simp [dropDuplicatesBy]
  | cons x xs ih =>
    simp only [dropDuplicatesBy, List.map_cons, List.nodup_cons]
    refine ⟨?_, ?_⟩
    · intro hmem
      rcases List.mem_map.mp hmem with ⟨b, hb, hkb⟩
      have hne := (List.mem_filter.mp hb).2
      rw [decide_eq_true_eq] at hne
      exact hne hkb
    · exact ih.sublist ((List.filter_sublist _).map k)

theorem getCol_thresholdCol_valid (t : Int) (ht : validThreshold t) (r : ExonStatRow) :
    getCol r (thresholdCol t) = some (thresholdVal r t) := by
  unfold validThreshold at ht
  simp only [List.mem_cons, List.not_mem_nil, or_false] at ht
  rcases ht with h | h | h | h | h <;> (simp only [thresholdVal]; rw [h]; rfl)

theorem getCol_eq_none_of_not_valid (t : Int) (ht : ¬ validThreshold t) (r : ExonStatRow) :
    getCol r (thresholdCol t) = none := by
  unfold validThreshold at ht
  simp only [List.mem_cons, List.not_mem_nil, or_false, not_or] at ht
  obtain ⟨h1, h2, h3, h4, h5⟩ := ht
  simp [getCol, h1, h2, h3, h4, h5]

theorem lowStats_eq_filter (cs : List ExonStatRow) (t : Int) (ht : validThreshold t) :
    lowStats cs t = .ok (cs.filter fun r => decide (thresholdVal r t < 100)) := by
  unfold lowStats
  induction cs with
  | nil => rfl
  | cons r rs ih =>
    rw [lowStatsGo, getCol_thresholdCol_valid t ht r, ih, List.filter_cons]
    by_cases h : thresholdVal r t < 100
    · simp [h]
    · simp [h]

theorem exonsOf_chrom_exists {raw : List RawCovRow} {e : ExonInterval}
    (he : e ∈ exonsOf raw) : ∃ r0 ∈ raw, e.chrom = .strs (chromToStr r0.chrom) := by
  unfold exonsOf at he
  rcases List.mem_map.mp he with ⟨e0, he0, rfl⟩
  rcases List.mem_map.mp (mem_dropDuplicatesBy_id.mp he0) with ⟨r0, hr0, rfl⟩
  exact ⟨r0, hr0, rfl⟩

theorem exonsCovOf_chrom_mem {raw : List RawCovRow} {r0 : RawCovRow} (h : r0 ∈ raw) :
    ∃ ec ∈ exonsCovOf raw, ec.chrom = .strs (chromToStr r0.chrom) := by
  unfold exonsCovOf
  refine ⟨({ gene := r0.gene, exon := r0.exon, chrom := .strs (chromToStr r0.chrom),
             exon_start := r0.exon_start, exon_end := r0.exon_end,
             cov := r0.cov } : ExonCovRow),
          ?_, rfl⟩
  refine List.mem_map.mpr
    ⟨({ gene := r0.gene, exon := r0.exon, chrom := r0.chrom,
        exon_start := r0.exon_start, exon_end := r0.exon_end,
        cov := r0.cov } : ExonCovRow), ?_, rfl⟩
  exact mem_dropDuplicatesBy_id.mpr (List.mem_map.mpr ⟨r0, h, rfl⟩)

theorem mem_snpsOf_intro {snp_df : List SnpRow} {raw : List RawCovRow}
    {e : ExonInterval} {v : SnpRow} (he : e ∈ exonsOf raw) (hv : v ∈ snp_df)
    (hc : v.chrom = e.chrom) (h1 : e.exon_start ≤ v.snp_pos) (h2 : v.snp_pos ≤ e.exon_end) :
    ({ chrom := e.chrom, snp_pos := v.snp_pos, ref := v.ref, alt := v.alt,
       id := v.id } : SnpMatchRow) ∈ snpsOf snp_df raw := by
  unfold snpsOf
  exact List.mem_flatMap.mpr
    ⟨e, he, List.mem_map.mpr ⟨v, List.mem_filter.mpr ⟨hv, by simp [hc, h1, h2]⟩, rfl⟩⟩

theorem mem_snpsOf_elim {snp_df : List SnpRow} {raw : List RawCovRow}
    {s : SnpMatchRow} (hs : s ∈ snpsOf snp_df raw) :
    ∃ e ∈ exonsOf raw, ∃ v ∈ snp_df, v.chrom = e.chrom ∧
      e.exon_start ≤ v.snp_pos ∧ v.snp_pos ≤ e.exon_end ∧
      s.chrom = e.chrom ∧ s.snp_pos = v.snp_pos ∧ s.ref = v.ref ∧ s.alt = v.alt := by
  unfold snpsOf at hs
  rcases List.mem_flatMap.mp hs with ⟨e, he, hmem⟩
  rcases List.mem_map.mp hmem with ⟨v, hvf, rfl⟩
  have hvd := List.mem_filter.mp hvf
  have hp := of_decide_eq_true hvd.2
  exact ⟨e, he, v, hvd.1, hp.1, hp.2.1, hp.2.2, rfl, rfl, rfl, rfl⟩

theorem mem_snpCovAll_intro {snp_df : List SnpRow} {raw : List RawCovRow}
    {s : SnpMatchRow} {ec : ExonCovRow}
    (hs : s ∈ snpsOf snp_df raw) (hec : ec ∈ exonsCovOf raw) (hc : ec.chrom = s.chrom) :
    ({ gene := ec.gene, exon := ec.exon, chrom := s.chrom, snp_pos := s.snp_pos,
       ref := s.ref, alt := s.alt, id := s.id, cov := ec.cov } : SnpCovRow) ∈
      snpCovAll snp_df raw := by
  unfold snpCovAll
  exact List.mem_flatMap.mpr
    ⟨s, hs, List.mem_map.mpr ⟨ec, List.mem_filter.mpr ⟨hec, by simp [hc]⟩, rfl⟩⟩

theorem mem_snpCovAll_elim {snp_df : List SnpRow} {raw : List RawCovRow}
    {x : SnpCovRow} (hx : x ∈ snpCovAll snp_df raw) :
    ∃ s ∈ snpsOf snp_df raw, x.chrom = s.chrom ∧ x.snp_pos = s.snp_pos ∧
      x.ref = s.ref ∧ x.alt = s.alt := by
  unfold snpCovAll at hx
  rcases List.mem_flatMap.mp hx with ⟨s, hs, hmem⟩
  rcases List.mem_map.mp hmem with ⟨ec, _, rfl⟩
  exact ⟨s, hs, rfl, rfl, rfl, rfl⟩

theorem mem_lowhigh_iff_snpsCov {snp_df : List SnpRow} {raw : List RawCovRow}
    {t : Int} {r : SnpCovRow} :
    r ∈ (snp_coverage snp_df raw t).1 ++ (snp_coverage snp_df raw t).2 ↔
      r ∈ snpsCov snp_df raw := by
  simp only [snp_coverage, List.mem_append, List.mem_filter, decide_eq_true_eq]
  constructor
  · rintro (⟨h, _⟩ | ⟨h, _⟩) <;> exact h
  · intro h
    rcases lt_or_le r.cov t with hlt | hle
    · exact Or.inl ⟨h, hlt⟩
    · exact Or.inr ⟨h, hle⟩

/-! Claim theorems. -/

/-- Claim C1: the coverage that `snp_coverage` attaches to a matched variant
is not, in general, the `cov` of a raw-coverage row whose interval contains
the variant.  The second merge is on `chrom` alone, so the variant at
chr17:41245000 — contained only in the interval `(41244900, 41245100)`, all
of whose raw rows have `cov = 15` — is attached `cov = 50` from the earlier
distinct row of the same chromosome and lands in `high` at threshold 20,
not in `low` with coverage 15. -/
theorem snp_coverage_attaches_noncontaining_cov :
    snp_coverage [c1Snp] [c1RowA, c1RowB] 20 =
      ([], [⟨"G1", 1, .strs "17", 41245000, "A", "G", "rs1", 50⟩]) ∧
    (∀ r ∈ [c1RowA, c1RowB],
      r.exon_start ≤ c1Snp.snp_pos ∧ c1Snp.snp_pos ≤ r.exon_end → r.cov = 15) := by
  decide

/-- Claim C2: the report counters ignore the configured threshold.  At
threshold 30 the inadequate set of the classifier is exactly `[c2Stat]` (one gene,
one exon), yet `generate_report` — which fixes the `"20x"` column and counts
gene-summary rows — reports `gene_issues = 0` and `exon_issues = 0`. -/
theorem report_counters_ignore_configured_threshold :
    generateReportCounters [c2Stat] [⟨"A"⟩] = ⟨1, 0, 0⟩ ∧
    validThreshold 30 ∧ lowStats [c2Stat] 30 = .ok [c2Stat] := by
  decide

/-- Claim C3: `snp_coverage` casts only the exon-side `chrom` to str and
leaves the variant-side `chrom` as loaded, so a variant whose chromosome was
read as the integer 17 — denoting the same chromosome as the raw-coverage
interval that contains it — matches nothing and both outputs are empty. -/
theorem snp_chrom_unnormalized_drops_match :
    snp_coverage [c3Snp] [c3Raw] 20 = ([], []) ∧
    chromToStr c3Snp.chrom = chromToStr c3Raw.chrom ∧
    c3Raw.exon_start ≤ c3Snp.snp_pos ∧ c3Snp.snp_pos ≤ c3Raw.exon_end := by
  decide

/-- Claim C4: for every exon-stats table and valid threshold `t`, the
inadequate set of the classifier contains a row iff the row is in the input and
the value of its `"<t>x"` column is strictly less than 100. -/
theorem classify_mem_iff (cs : List ExonStatRow) (t : Int) (ht : validThreshold t)
    (l : List ExonStatRow) (hl : lowStats cs t = .ok l) (r : ExonStatRow) :
    r ∈ l ↔ r ∈ cs ∧ thresholdVal r t < 100 := by
  rw [lowStats_eq_filter cs t ht] at hl
  injection hl with hl
  subst hl
  simp [List.mem_filter]

/-- Witness for C4 at threshold 20: the row with `20x = 80` is in the
inadequate set, the row with `20x = 100` would not be. -/
theorem classify_mem_iff_witness :
    brca1Exon3 ∈ [brca1Exon3] ↔
      brca1Exon3 ∈ [brca1Exon3, brca1Exon4] ∧ thresholdVal brca1Exon3 20 < 100 :=
  classify_mem_iff [brca1Exon3, brca1Exon4] 20 (by decide) [brca1Exon3] (by decide)
    brca1Exon3

/-- Claim C5: region extraction is the semi-join of `raw_coverage` against
the `(gene, exon)` pairs of the inadequate set: membership is by set
semantics (any key list with the same members gives the same output), and
the output is a sublist of `raw_coverage`, hence in original row order. -/
theorem extract_semijoin (inad dup : List ExonStatRow) (raw : List RawCovRow)
    (h : ∀ p : String × Int, p ∈ lowExonList inad ↔ p ∈ lowExonList dup) :
    (∀ r : RawCovRow, r ∈ extractRaw (lowExonList inad) raw ↔
        r ∈ raw ∧ (r.gene, r.exon) ∈ lowExonList inad) ∧
    extractRaw (lowExonList inad) raw = extractRaw (lowExonList dup) raw ∧
    (extractRaw (lowExonList inad) raw).Sublist raw := by
  refine ⟨?_, ?_, List.filter_sublist raw⟩
  · intro r
    simp [extractRaw, List.mem_filter]
  · unfold extractRaw
    refine List.filter_congr ?_
    intro r _
    exact decide_eq_decide.mpr (h (r.gene, r.exon))

/-- Witness for C5: a duplicated `(gene, exon)` key yields the same
extraction as the deduplicated key set. -/
theorem extract_semijoin_witness :
    extractRaw (lowExonList [brca1Exon3, brca1Exon3]) [rawBrca3, rawBrca4] =
      extractRaw (lowExonList [brca1Exon3]) [rawBrca3, rawBrca4] :=
  (extract_semijoin [brca1Exon3, brca1Exon3] [brca1Exon3] [rawBrca3, rawBrca4]
    (by intro p; simp [lowExonList])).2.1

/-- Claim C6: a variant of the input is matched — some row carrying its
`(chrom, position, ref, alt)` appears in `low ++ high` — iff some distinct
exon interval with equal chrom contains its position with both endpoints
inclusive; a variant contained in no interval appears in neither output. -/
theorem snp_match_iff_contained (snp_df : List SnpRow) (raw : List RawCovRow)
    (t : Int) (v : SnpRow) (hv : v ∈ snp_df) :
    (∃ r ∈ (snp_coverage snp_df raw t).1 ++ (snp_coverage snp_df raw t).2,
        r.chrom = v.chrom ∧ r.snp_pos = v.snp_pos ∧ r.ref = v.ref ∧ r.alt = v.alt) ↔
      ∃ e ∈ exonsOf raw, v.chrom = e.chrom ∧ e.exon_start ≤ v.snp_pos ∧
        v.snp_pos ≤ e.exon_end := by
  constructor
  · rintro ⟨r, hr, hchrom, hpos, _, _⟩
    have hr1 : r ∈ snpsCov snp_df raw := mem_lowhigh_iff_snpsCov.mp hr
    have hr2 : r ∈ snpCovAll snp_df raw := mem_of_mem_dropDuplicatesBy _ hr1
    rcases mem_snpCovAll_elim hr2 with ⟨s, hs, hc, hp, _, _⟩
    rcases mem_snpsOf_elim hs with ⟨e, he, w, _, _, h1, h2, hsc, hsp, _, _⟩
    refine ⟨e, he, ?_, ?_, ?_⟩
    · rw [← hchrom, hc, hsc]
    · rw [← hpos, hp, hsp]; exact h1
    · rw [← hpos, hp, hsp]; exact h2
  · rintro ⟨e, he, hc, h1, h2⟩
    have hs := mem_snpsOf_intro he hv hc h1 h2
    rcases exonsOf_chrom_exists he with ⟨r0, hr0, hec⟩
    rcases exonsCovOf_chrom_mem hr0 with ⟨ec, hecm, hecc⟩
    have hx := mem_snpCovAll_intro hs hecm (by rw [hecc, ← hec])
    rcases exists_rep_dropDuplicatesBy
      (fun r : SnpCovRow => (r.chrom, r.snp_pos, r.ref, r.alt)) hx with ⟨y, hy, hk⟩
    simp only [Prod.mk.injEq] at hk
    obtain ⟨k1, k2, k3, k4⟩ := hk
    refine ⟨y, mem_lowhigh_iff_snpsCov.mpr hy, ?_, k2, k3, k4⟩
    rw [k1, ← hc]

/-- Witness for C6: one variant inside one interval is matched. -/
theorem snp_match_iff_contained_witness :
    (∃ r ∈ (snp_coverage [c1Snp] [c1RowB] 20).1 ++ (snp_coverage [c1Snp] [c1RowB] 20).2,
        r.chrom = c1Snp.chrom ∧ r.snp_pos = c1Snp.snp_pos ∧ r.ref = c1Snp.ref ∧
        r.alt = c1Snp.alt) ↔
      ∃ e ∈ exonsOf [c1RowB], c1Snp.chrom = e.chrom ∧ e.exon_start ≤ c1Snp.snp_pos ∧
        c1Snp.snp_pos ≤ e.exon_end :=
  snp_match_iff_contained [c1Snp] [c1RowB] 20 c1Snp (by decide)

/-- Claim C7: `snps_cov` rows are partitioned by `Coverage < threshold`
(into `low`) versus not (into `high`), and no `(chrom, position, ref, alt)`
key occurs on both sides. -/
theorem snp_low_high_partition (snp_df : List SnpRow) (raw : List RawCovRow) (t : Int) :
    (∀ r ∈ snpsCov snp_df raw,
        (r ∈ (snp_coverage snp_df raw t).1 ↔ r.cov < t) ∧
        (r ∈ (snp_coverage snp_df raw t).2 ↔ ¬ r.cov < t)) ∧
    ∀ a ∈ (snp_coverage snp_df raw t).1, ∀ b ∈ (snp_coverage snp_df raw t).2,
      ¬ (a.chrom = b.chrom ∧ a.snp_pos = b.snp_pos ∧ a.ref = b.ref ∧ a.alt = b.alt) := by
  have hlow : ∀ r : SnpCovRow,
      r ∈ (snp_coverage snp_df raw t).1 ↔ r ∈ snpsCov snp_df raw ∧ r.cov < t := by
    intro r; simp [snp_coverage, List.mem_filter]
  have hhigh : ∀ r : SnpCovRow,
      r ∈ (snp_coverage snp_df raw t).2 ↔ r ∈ snpsCov snp_df raw ∧ t ≤ r.cov := by
    intro r; simp [snp_coverage, List.mem_filter]
  constructor
  · intro r hr
    constructor
    · rw [hlow]; simp [hr]
    · rw [hhigh]; simp [hr, not_lt]
  · intro a ha b hb hcon
    obtain ⟨h1, h2, h3, h4⟩ := hcon
    have ha1 := (hlow a).mp ha
    have hb1 := (hhigh b).mp hb
    have hnd := nodup_map_dropDuplicatesBy
      (fun r : SnpCovRow => (r.chrom, r.snp_pos, r.ref, r.alt)) (snpCovAll snp_df raw)
    have hab : a = b :=
      List.inj_on_of_nodup_map hnd ha1.1 hb1.1 (by simp [h1, h2, h3, h4])
    rw [hab] at ha1
    exact absurd ha1.2 (not_lt.mpr hb1.2)

/-- Claim C8: a threshold that names no depth column of the input makes
`low_coverage_regions` raise the `KeyError` for the missing label — but only
once the row loop touches a row, so the input must be nonempty. -/
theorem classify_invalid_threshold_raises (cs : List ExonStatRow) (t : Int)
    (hne : cs ≠ []) (ht : ¬ validThreshold t) :
    lowStats cs t = .error (.keyError (thresholdCol t)) ∧
    ∀ raw : List RawCovRow,
      low_coverage_regions cs raw t = .error (.keyError (thresholdCol t)) := by
  obtain ⟨r, rs, rfl⟩ : ∃ r rs, cs = r :: rs := by
    cases cs with
    | nil => exact absurd rfl hne
    | cons a as => exact ⟨a, as, rfl⟩
  have h1 : lowStats (r :: rs) t = .error (.keyError (thresholdCol t)) := by
    unfold lowStats
    rw [lowStatsGo, getCol_eq_none_of_not_valid t ht r]
  refine ⟨h1, fun raw => ?_⟩
  unfold low_coverage_regions
  rw [h1]

/-- Witness for C8 at threshold 15 (no `"15x"` column) on a one-row input. -/
theorem classify_invalid_threshold_raises_witness :
    lowStats [c2Stat] 15 = .error (.keyError (thresholdCol 15)) ∧
    low_coverage_regions [c2Stat] [] 15 = .error (.keyError (thresholdCol 15)) :=
  ⟨(classify_invalid_threshold_raises [c2Stat] 15 (by decide) (by decide)).1,
   (classify_invalid_threshold_raises [c2Stat] 15 (by decide) (by decide)).2 []⟩

/-- Counterexample to C8 as stated: on the empty exon-stats input the row
loop never touches the missing column, so `classify` at the unknown
threshold 15 returns an empty result instead of failing. -/
theorem classify_missing_column_empty_ok :
    lowStats [] 15 = .ok [] ∧ ¬ validThreshold 15 :=
  ⟨rfl, by decide⟩

/-- Claim C9: the empty exon-stats input classifies, at any valid threshold,
to an empty inadequate set without raising, and extraction with the empty
key set returns the empty sequence. -/
theorem classify_extract_empty (t : Int) (ht : validThreshold t)
    (raw : List RawCovRow) :
    lowStats [] t = .ok [] ∧ extractRaw (lowExonList []) raw = [] ∧
    low_coverage_regions [] raw t = .ok [] := by
  have hex : extractRaw (lowExonList []) raw = [] := by
    unfold extractRaw lowExonList
    induction raw with
    | nil => rfl
    | cons r rs ih => simp [List.filter_cons, ih]
  exact ⟨rfl, hex, congrArg Except.ok hex⟩

/-- Witness for C9 at threshold 20 with a nonempty raw-coverage table. -/
theorem classify_extract_empty_witness :
    lowStats [] 20 = .ok [] ∧ extractRaw (lowExonList []) [rawBrca3] = [] ∧
    low_coverage_regions [] [rawBrca3] 20 = .ok [] :=
  classify_extract_empty 20 (by decide) [rawBrca3]

/-- Claim C10: when SNP VCFs are supplied, `generate_report` truth-tests the
DataFrames returned by `snp_coverage`, which raises the pandas ambiguous-truth
`ValueError`, so no report is produced; with no VCFs the `None` fallback
substitutes the placeholders. -/
theorem report_snp_truth_test (snp_df : List SnpRow) (raw : List RawCovRow) (t : Int) :
    generateReportSnp (mainSnpFlow true snp_df raw t).1
        (mainSnpFlow true snp_df raw t).2 = .error .ambiguousTruth ∧
    generateReportSnp (mainSnpFlow false snp_df raw t).1
        (mainSnpFlow false snp_df raw t).2 =
      .ok ("$snps_low_cov", "$snps_high_cov") :=
  ⟨rfl, rfl⟩

end CoverageReport
